import Mathlib

/-!
Shallow embedding of `sail_scripts/translation_coverage.py`.

The Python module classifies organisation websites: it fetches a page,
parses it with BeautifulSoup, and runs three detectors over the parsed
document (`detect_primary_language`, `detect_language_options`,
`check_for_non_english_resources`), assembling a per-site result dict in
`analyze_website` and mapping that over all organisations in
`analyze_ai_safety_organizations`.

The embedding below models the parsed HTML document as a tree of element
and text nodes (`Node` / `NodeList`), BeautifulSoup queries as list
operations over the pre-order traversal of that tree, and Python string
operations as structurally recursive functions over `String.data` so that
every definition evaluates by kernel reduction.  Python `str.lower` is
modelled as ASCII lowercasing (`Char.toLower`); every string whose case
matters in the source (language codes, attribute tokens) is ASCII.
Network fetching and HTML parsing are external effects: they are modelled
by a `FetchResult` input that either carries an HTTP status code with the
parsed document, or the description string of a raised exception.
-/

/-! Section: Python string primitives -/

/-- Python `s.lower()`, restricted to ASCII case folding. -/
def pyLower (s : String) : String := ⟨s.data.map Char.toLower⟩

/-- Does `needle` occur as a contiguous sublist of `hay`?  Backs the Python
substring test `needle in hay`. -/
def occursIn (needle : List Char) : List Char → Bool
  | [] => needle.isEmpty
  | c :: t => needle.isPrefixOf (c :: t) || occursIn needle t

/-- Python `needle in hay` for strings. -/
def containsSub (hay needle : String) : Bool := occursIn needle.data hay.data

/-- Python `s.strip()`: remove leading and trailing whitespace. -/
def pyStrip (s : String) : String :=
  ⟨(((s.data.dropWhile Char.isWhitespace).reverse).dropWhile Char.isWhitespace).reverse⟩

/-- Python `s.startswith(p)`. -/
def pyStartsWith (s p : String) : Bool := p.data.isPrefixOf s.data

/-- Python `s.split()` with no separator: split on whitespace runs,
dropping empty pieces.  BeautifulSoup tokenises multi-valued attributes
(`class`, `rel`) this way. -/
def splitWSAux (acc : List Char) : List Char → List String
  | [] => if acc.isEmpty then [] else [⟨acc.reverse⟩]
  | c :: t =>
    if c.isWhitespace then
      if acc.isEmpty then splitWSAux [] t else ⟨acc.reverse⟩ :: splitWSAux [] t
    else splitWSAux (c :: acc) t

/-- Python `s.split()` for strings. -/
def pySplit (s : String) : List String := splitWSAux [] s.data

/-- Python `" ".join(xs)`. -/
def joinSpace : List String → String
  | [] => ""
  | [x] => x
  | x :: y :: rest => x ++ " " ++ joinSpace (y :: rest)

/-- Python `s[:n]` (slice of the first `n` characters). -/
def pyTake (n : Nat) (s : String) : String := ⟨s.data.take n⟩

/-- Python `s.split(sep)[0]` for the single-character separator `-`:
the prefix of `s` up to (excluding) the first dash. -/
def firstDashPiece (s : String) : String := ⟨s.data.takeWhile (fun c => c != '-')⟩

/-! Section: The parsed document (BeautifulSoup model)

A parsed document is a forest of nodes; an element node carries its tag
name, its attribute list (attribute values as raw strings, as produced by
the HTML parser), and its children. -/

mutual
inductive Node where
  | elem (tag : String) (attrs : List (String × String)) (children : NodeList)
  | text (s : String)
inductive NodeList where
  | nil
  | cons (hd : Node) (tl : NodeList)
end

/-- Build a `NodeList` from an ordinary list (for writing documents). -/
def toNL : List Node → NodeList
  | [] => .nil
  | n :: rest => .cons n (toNL rest)

/-- Tag name of a node (text nodes have none). -/
def Node.tagName : Node → String
  | .elem t _ _ => t
  | .text _ => ""

/-- BeautifulSoup `tag.get(name)`: the first binding of an attribute. -/
def Node.getAttr (n : Node) (name : String) : Option String :=
  match n with
  | .elem _ attrs _ => (attrs.find? (fun p => p.1 == name)).map (fun p => p.2)
  | .text _ => none

/-- BeautifulSoup `tag.get(name, "")`. -/
def Node.attrD (n : Node) (name : String) : String := (n.getAttr name).getD ""

/-- BeautifulSoup tokenisation of a multi-valued attribute such as
`class` or `rel`: the whitespace-separated tokens of its raw value
(`tag.get("class", [])`). -/
def Node.tokensOf (n : Node) (name : String) : List String := pySplit (n.attrD name)

mutual
/-- The element (tag) nodes of the subtree rooted at a node, the node
itself included when it is an element, in document (pre-)order. -/
def Node.selfAndElems : Node → List Node
  | .text _ => []
  | .elem t a cs => .elem t a cs :: NodeList.elems cs

/-- All element nodes of a forest in document (pre-)order; this is the
universe that the BeautifulSoup `find_all` query filters. -/
def NodeList.elems : NodeList → List Node
  | .nil => []
  | .cons n rest => n.selfAndElems ++ NodeList.elems rest
end

/-- The element descendants of a node, the node itself excluded:
BeautifulSoup `tag.find_all()`. -/
def Node.descElems : Node → List Node
  | .text _ => []
  | .elem _ _ cs => NodeList.elems cs

mutual
/-- BeautifulSoup `tag.get_text()`: the concatenation of every text node
in the subtree. -/
def Node.innerText : Node → String
  | .text s => s
  | .elem _ _ cs => NodeList.textOf cs

/-- Concatenated text of a forest. -/
def NodeList.textOf : NodeList → String
  | .nil => ""
  | .cons n rest => n.innerText ++ NodeList.textOf rest
end

mutual
/-- BeautifulSoup `tag.string`: the single text child of the tag, looking
through a unique element child, `None` as soon as the tag has several
children. -/
def Node.strProp : Node → Option String
  | .text s => some s
  | .elem _ _ cs => NodeList.strPropSingle cs

/-- Helper for `Node.strProp`: defined only on singleton child lists. -/
def NodeList.strPropSingle : NodeList → Option String
  | .cons c .nil => Node.strProp c
  | _ => none
end

/-- Serialised attributes, for the `str(tag)` evidence snippets. -/
def renderAttrs : List (String × String) → String
  | [] => ""
  | (k, v) :: rest => " " ++ k ++ "=" ++ "\"" ++ v ++ "\"" ++ renderAttrs rest

mutual
/-- A model of Python `str(tag)`: re-serialised HTML of the subtree.
Used only for the truncated `content` evidence snippets the detector
stores in its signals; no claim depends on the exact serialisation. -/
def Node.render : Node → String
  | .text s => s
  | .elem t a cs => "<" ++ t ++ renderAttrs a ++ ">" ++ NodeList.renderAll cs ++ "</" ++ t ++ ">"

/-- Serialisation of a forest. -/
def NodeList.renderAll : NodeList → String
  | .nil => ""
  | .cons n rest => n.render ++ NodeList.renderAll rest
end

/-- BeautifulSoup `soup.find_all(names)`: all elements of the document
whose tag is one of `names`, in document order. -/
def findAllTags (soup : NodeList) (names : List String) : List Node :=
  (NodeList.elems soup).filter (fun n => names.contains n.tagName)

/-- BeautifulSoup `tag.find_all(names)`: the same search below a node. -/
def Node.findAllIn (n : Node) (names : List String) : List Node :=
  n.descElems.filter (fun m => names.contains m.tagName)

/-- BeautifulSoup `soup.find(id=value)`: the first element, of any tag,
whose `id` attribute equals `value` exactly. -/
def findById (soup : NodeList) (value : String) : Option Node :=
  (NodeList.elems soup).find? (fun n => n.getAttr "id" == some value)

/-- Concatenation of `f` over a list; the Python pattern of appending to an
accumulator inside nested `for` loops. -/
def collect (f : α → List β) : List α → List β
  | [] => []
  | x :: rest => f x ++ collect f rest

/-! Section: Detector constants (`translation_coverage.py` lines 24-61, 73-80,
136-145, 213-230, 344-359) -/

/-- Language-name aliases paired with their codes, in the dict insertion
order of the source (`language_names`, lines 25-47). -/
def language_names : List (String × String) :=
  [("english", "en"), ("español", "es"), ("spanish", "es"),
   ("français", "fr"), ("french", "fr"), ("deutsch", "de"),
   ("german", "de"), ("italiano", "it"), ("italian", "it"),
   ("português", "pt"), ("portuguese", "pt"), ("русский", "ru"),
   ("russian", "ru"), ("中文", "zh"), ("chinese", "zh"),
   ("日本語", "ja"), ("japanese", "ja"), ("العربية", "ar"),
   ("arabic", "ar"), ("हिन्दी", "hi"), ("hindi", "hi")]

/-- The eleven supported two-letter codes (`language_codes`, line 50). -/
def language_codes : List String :=
  ["en", "es", "fr", "de", "it", "pt", "ru", "zh", "ja", "ar", "hi"]

/-- Domains excluded from the navigation-group strategy
(`exclude_domains`, lines 53-61). -/
def exclude_domains : List String :=
  ["scholar.google.com", "translate.google.com", "accounts.google.com",
   "twitter.com", "facebook.com", "linkedin.com", "youtube.com"]

/-- Language tokens looked for in the id/name/class of a select
(`lang_indicators`, lines 73-80). -/
def lang_indicators : List String :=
  ["lang", "idioma", "sprache", "langue", "language", "locale"]

/-- Explicit language-navigation markers (lines 136-145). -/
def explicit_nav_terms : List String :=
  ["language-selector", "lang-selector", "language-menu", "lang-menu",
   "language-nav", "lang-nav", "language-switcher", "lang-switcher"]

/-- Well-known language-switcher ids (`lang_id_patterns`, lines 213-230). -/
def lang_id_patterns : List String :=
  ["language-selector", "languageSelector", "language-switcher",
   "languageSwitcher", "lang-selector", "langSelector", "lang-switcher",
   "langSwitcher", "select-language", "selectLanguage", "change-language",
   "changeLanguage", "translate-button", "translateButton",
   "translation-menu", "translationMenu"]

/-- A language-option signal, one constructor per `type` value the Python
code stores in its signal dicts. -/
inductive Signal where
  | language_select (matched_codes matched_names : Nat) (content : String)
  | language_menu (matched_paths matched_names : List String) (content : String)
  | id_exact_match (pattern : String) (content : String)
  | alternate_hreflang (languages : List String) (count : Nat)
  | google_translate (content : String)
  | google_translate_script (content : String)
deriving DecidableEq

/-! Section: Regex emulation for the navigation-group strategy

The source uses two `re.search` calls on already-lowercased hrefs
(lines 174 and 179).  Both regexes anchor on a particular character
(`/`, or `?`/`&`), so the leftmost `re.search` match is found by scanning
start positions left to right. -/

/-- Character at index `i`, with an out-of-range default that matches
none of the regex character classes. -/
def charAt (cs : List Char) (i : Nat) : Char := cs.getD i ' '

/-- Character class `[a-z]` (the hrefs are lowercased before matching, so
the `re.I` flag is not involved). -/
def isLowerAlpha (c : Char) : Bool := 'a' ≤ c && c ≤ 'z'

/-- The tail group `(/|$|\?)` of the path regex, at index `j`: a slash, a
question mark, or the Python `$` (end of string, or just before a final
newline). -/
def pathTailOk (cs : List Char) (j : Nat) : Bool :=
  j == cs.length || charAt cs j == '/' || charAt cs j == '?' ||
    (j + 1 == cs.length && charAt cs j == '\n')

/-- Match of `/([a-z]{2})(?:-[a-z]{2})?(/|$|\?)` starting at index `i`,
returning group 1 (the two-letter segment).  The optional region group
gives the two ways the tail may be placed. -/
def pathCodeAt (cs : List Char) (i : Nat) : Option String :=
  if charAt cs i == '/' && isLowerAlpha (charAt cs (i + 1)) && isLowerAlpha (charAt cs (i + 2)) then
    if pathTailOk cs (i + 3) ||
        (charAt cs (i + 3) == '-' && isLowerAlpha (charAt cs (i + 4)) &&
          isLowerAlpha (charAt cs (i + 5)) && pathTailOk cs (i + 6)) then
      some ⟨[charAt cs (i + 1), charAt cs (i + 2)]⟩
    else none
  else none

/-- Emulation of `re.search` for the path regex (line 174): group 1 of the
leftmost match. -/
def searchLangPath (cs : List Char) : Option String :=
  (List.range cs.length).findSome? (fun i => pathCodeAt cs i)

/-- Is `lit` the contiguous content of `cs` starting at index `i`? -/
def matchLit (cs : List Char) (i : Nat) (lit : List Char) : Bool :=
  lit.isPrefixOf (cs.drop i)

/-- Match of `[\?&](lang|language)=([a-z]{2})` starting at index `i`,
returning group 2.  The alternation tries `lang` before `language`, as
Python does. -/
def paramCodeAt (cs : List Char) (i : Nat) : Option String :=
  if charAt cs i == '?' || charAt cs i == '&' then
    if matchLit cs (i + 1) "lang=".data && isLowerAlpha (charAt cs (i + 6)) &&
        isLowerAlpha (charAt cs (i + 7)) then
      some ⟨[charAt cs (i + 6), charAt cs (i + 7)]⟩
    else if matchLit cs (i + 1) "language=".data && isLowerAlpha (charAt cs (i + 10)) &&
        isLowerAlpha (charAt cs (i + 11)) then
      some ⟨[charAt cs (i + 10), charAt cs (i + 11)]⟩
    else none
  else none

/-- Emulation of `re.search` for the query-parameter regex (line 179). -/
def searchLangParam (cs : List Char) : Option String :=
  (List.range cs.length).findSome? (fun i => paramCodeAt cs i)

/-! Section: Language-Option Detector (`detect_language_options`, lines 17-285)

The Python function appends signals to one list while running its five
approaches in order; the embedding computes the signals of each approach as a
list and concatenates them in the same order. -/

/-- Insertion-order deduplication; models the observable content of the
Python `set`s used by the navigation-group and hreflang strategies (the
iteration order of a Python set is unspecified; only the member set and
its size matter to the source). -/
def dedupAux (seen : List String) : List String → List String
  | [] => []
  | x :: rest =>
    if seen.contains x then dedupAux seen rest
    else x :: dedupAux (seen ++ [x]) rest

/-- Distinct members of a list, first occurrences kept. -/
def dedupKeepFirst (l : List String) : List String := dedupAux [] l

/-- Approach 1, body of the loop over `soup.find_all("select")`
(lines 64-122): signals contributed by one select element.  The signal is
appended only inside the `if not has_lang_indicator` branch of the
source, so a select whose id/name/class carries a language token
contributes nothing. -/
def selectSignal (select : Node) : List Signal :=
  let options := select.findAllIn ["option"]
  if 2 ≤ options.length ∧ options.length ≤ 15 then
    let select_id := pyLower (select.attrD "id")
    let select_name := pyLower (select.attrD "name")
    let select_classes := pyLower (joinSpace (select.tokensOf "class"))
    let has_lang_indicator := lang_indicators.any (fun ind =>
      containsSub select_id ind || containsSub select_name ind || containsSub select_classes ind)
    if has_lang_indicator then []
    else
      let option_values := options.map (fun o => pyLower (o.attrD "value"))
      let option_texts := options.map (fun o => pyLower (pyStrip o.innerText))
      let lang_code_matches := (language_codes.filter (fun code =>
        option_values.any (fun v =>
          v == code || pyStartsWith v (code ++ "-") || pyStartsWith v (code ++ "_")))).length
      let lang_name_matches := (language_names.filter (fun nc =>
        option_texts.any (fun t => containsSub t nc.1))).length
      if 2 ≤ lang_code_matches ∨ 2 ≤ lang_name_matches then
        [.language_select lang_code_matches lang_name_matches (pyTake 200 select.render)]
      else []
  else []

/-- Approach 1 over the whole document. -/
def approach1 (soup : NodeList) : List Signal :=
  collect selectSignal (findAllTags soup ["select"])

/-- Approach 2, body of the loop over `soup.find_all(["nav","ul","div"])`
(lines 126-209): signals contributed by one container element. -/
def navSignal (nav : Node) : List Signal :=
  if 20 < nav.descElems.length then []
  else
    let nav_id := pyLower (nav.attrD "id")
    let nav_classes := pyLower (joinSpace (nav.tokensOf "class"))
    let explicit_lang_element := explicit_nav_terms.any (fun term =>
      containsSub nav_id term || containsSub nav_classes term)
    let required_matches := if explicit_lang_element then 1 else 2
    let links := nav.findAllIn ["a"]
    if 2 ≤ links.length ∧ links.length ≤ 10 then
      let filtered_links := links.filter (fun link =>
        !(exclude_domains.any (fun domain => containsSub (link.attrD "href") domain)))
      if filtered_links.length < 2 then []
      else
        let href_values := filtered_links.map (fun link => pyLower (link.attrD "href"))
        let link_texts := filtered_links.map (fun link => pyLower (pyStrip link.innerText))
        let lang_path_matches := collect (fun href =>
          (match searchLangPath href.data with
           | some code => if language_codes.contains code then [code] else []
           | none => []) ++
          (match searchLangParam href.data with
           | some code =>
             if language_codes.contains code then
               if containsSub href "hl=" && containsSub href "scholar.google" then []
               else [code]
             else []
           | none => [])) href_values
        let unique_lang_paths := dedupKeepFirst lang_path_matches
        let text_lang_matches := collect (fun text =>
          match language_names.find? (fun nc =>
            text == nc.1 || text == nc.2 || pyStartsWith text (nc.1 ++ " ")) with
          | some nc => [nc.2]
          | none => []) link_texts
        let unique_text_matches := dedupKeepFirst text_lang_matches
        let all_matches := dedupKeepFirst (unique_lang_paths ++ unique_text_matches)
        if required_matches ≤ all_matches.length then
          [.language_menu unique_lang_paths unique_text_matches (pyTake 200 nav.render)]
        else []
    else []

/-- Approach 2 over the whole document. -/
def approach2 (soup : NodeList) : List Signal :=
  collect navSignal (findAllTags soup ["nav", "ul", "div"])

/-- Approach 3 (lines 232-247): exact-id lookup of well-known switcher
identifiers, corroborated by one link, select, or button descendant. -/
def approach3 (soup : NodeList) : List Signal :=
  collect (fun pattern =>
    match findById soup pattern with
    | some element =>
      if 1 ≤ (element.findAllIn ["a"]).length ∨ 1 ≤ (element.findAllIn ["select"]).length ∨
          1 ≤ (element.findAllIn ["button"]).length then
        [.id_exact_match pattern (pyTake 200 element.render)]
      else []
    | none => []) lang_id_patterns

/-- The `<link rel="alternate" hreflang=...>` elements of the document
(`soup.find_all("link", attrs={"rel": "alternate", "hreflang": True})`,
line 252).  BeautifulSoup matches `rel` as a multi-valued attribute, so
the element matches when `alternate` is one of its `rel` tokens. -/
def hreflangLinks (soup : NodeList) : List Node :=
  (NodeList.elems soup).filter (fun n =>
    n.tagName == "link" && (n.tokensOf "rel").contains "alternate" && (n.getAttr "hreflang").isSome)

/-- The guard of line 254 on an already-lowercased `hreflang` value:
truthy (non-empty) and neither `en` nor `x-default`. -/
def goodAltCode (c : String) : Prop := c ≠ "" ∧ c ≠ "en" ∧ c ≠ "x-default"

instance (c : String) : Decidable (goodAltCode c) := by
  unfold goodAltCode
  infer_instance

/-- The fold of lines 251-255: lowercase each `hreflang` value and add it
to the `alt_langs` set when it is non-empty and neither `en` nor
`x-default`. -/
def addAltCodes (acc : List String) : List Node → List String
  | [] => acc
  | link :: rest =>
    let lang_code := pyLower (link.attrD "hreflang")
    if goodAltCode lang_code then
      addAltCodes (if acc.contains lang_code then acc else acc ++ [lang_code]) rest
    else addAltCodes acc rest

/-- The `alt_langs` set of approach 4, as an insertion-ordered list. -/
def altLangs (soup : NodeList) : List String := addAltCodes [] (hreflangLinks soup)

/-- Approach 4 (lines 249-264): one signal carrying the set of alternate
language codes, when that set is non-empty. -/
def approach4 (soup : NodeList) : List Signal :=
  let alts := altLangs soup
  if alts ≠ [] then [.alternate_hreflang alts alts.length] else []

/-- Approach 5 (lines 266-283): the Google Translate widget element, and
a script whose single string mentions the initialisation call of the widget
(the loop over scripts stops at the first hit). -/
def approach5 (soup : NodeList) : List Signal :=
  (match findById soup "google_translate_element" with
   | some gt_element => [.google_translate (pyTake 200 gt_element.render)]
   | none => []) ++
  (if (findAllTags soup ["script"]).any (fun script =>
        match script.strProp with
        | some s => s ≠ "" && containsSub s "new google.translate.TranslateElement"
        | none => false) then
    [.google_translate_script "Google Translate implementation detected"]
  else [])

/-- Embedding of `detect_language_options` (lines 17-285): the signals of
the five approaches, in source order. -/
def detect_language_options (soup : NodeList) : List Signal :=
  approach1 soup ++ approach2 soup ++ approach3 soup ++ approach4 soup ++ approach5 soup

/-! Section: Primary Language Detector (`detect_primary_language`, lines 289-331)

`langdetect.detect` is an external collaborator; it is passed in as
`guess : String → Option String`, where `none` models the
`LangDetectException` the library raises on short or ambiguous text.  A
raised exception lands in the bare `except: pass` of the source, after
which the function returns `"unknown"`; `(guess text).getD "unknown"`
reproduces exactly that control flow, since nothing else runs between a
`return langdetect.detect(text)` and the fall-through return. -/

/-- Emulation of `soup.select(tag)` for the five selectors of line 315.  The three
bare names select by tag; `div.content` and `div.main` select `div`
elements carrying the class token. -/
def selectorMatches (soup : NodeList) (sel : String) : List Node :=
  if sel == "div.content" then
    (NodeList.elems soup).filter (fun n => n.tagName == "div" && (n.tokensOf "class").contains "content")
  else if sel == "div.main" then
    (NodeList.elems soup).filter (fun n => n.tagName == "div" && (n.tokensOf "class").contains "main")
  else findAllTags soup [sel]

/-- The `for tag in [...]` loop of lines 315-320: first selector with a
match whose stripped text exceeds 100 characters wins; `none` when the
loop falls through. -/
def containerStage (guess : String → Option String) (soup : NodeList) : List String → Option String
  | [] => none
  | sel :: rest =>
    match selectorMatches soup sel with
    | [] => containerStage guess soup rest
    | content :: _ =>
      let text := pyStrip content.innerText
      if 100 < text.length then some ((guess text).getD "unknown")
      else containerStage guess soup rest

/-- Step 3 of the detector (lines 304-331): paragraphs, then main-content
containers, then the whole body, each gated by the 100-character floor. -/
def freeTextStage (guess : String → Option String) (soup : NodeList) : String :=
  let paragraphs := findAllTags soup ["p"]
  let fromParagraphs :=
    if paragraphs.length ≠ 0 then
      let text := joinSpace ((paragraphs.take 5).map (fun p => pyStrip p.innerText))
      if 100 < text.length then some ((guess text).getD "unknown") else none
    else none
  match fromParagraphs with
  | some r => r
  | none =>
    match containerStage guess soup ["main", "article", "section", "div.content", "div.main"] with
    | some r => r
    | none =>
      match (findAllTags soup ["body"]).head? with
      | some body =>
        let text := pyStrip body.innerText
        if 100 < text.length then (guess text).getD "unknown" else "unknown"
      | none => "unknown"

/-- Step 2 of the detector (lines 300-302): the `content-language` meta
tag, region subtag truncated. -/
def metaStage (guess : String → Option String) (soup : NodeList) : String :=
  match ((NodeList.elems soup).filter (fun n =>
      n.tagName == "meta" && n.getAttr "http-equiv" == some "content-language")).head? with
  | some meta_lang =>
    match meta_lang.getAttr "content" with
    | some c => firstDashPiece (pyLower c)
    | none => freeTextStage guess soup
  | none => freeTextStage guess soup

/-- Embedding of `detect_primary_language` (lines 289-331). -/
def detect_primary_language (guess : String → Option String) (soup : NodeList) : String :=
  match (findAllTags soup ["html"]).head? with
  | some html_tag =>
    match html_tag.getAttr "lang" with
    | some v =>
      let lang_attr := pyLower v
      if lang_attr.data.contains '-' then firstDashPiece lang_attr
      else lang_attr
    | none => metaStage guess soup
  | none => metaStage guess soup

/-! Section: Non-English Resource Detector
(`check_for_non_english_resources`, lines 335-389) -/

/-- Language path segments and native names (lines 344-359). -/
def language_indicators : List String :=
  ["/es/", "/fr/", "/de/", "/zh/", "/ru/", "/ja/", "/ar/",
   "español", "français", "deutsch", "中文", "русский", "日本語", "العربية"]

/-- Emulation of `soup.find_all("a", href=True)`: anchors carrying an
href. -/
def hrefAnchors (soup : NodeList) : List Node :=
  (NodeList.elems soup).filter (fun n => n.tagName == "a" && (n.getAttr "href").isSome)

/-- The class words of the resource-section regex
`re.compile("(resource|publication|paper|documentation)", re.I)`. -/
def resource_class_words : List String :=
  ["resource", "publication", "paper", "documentation"]

/-- Emulation of `soup.find_all(["section","div"], class_=...)` with the
case-insensitive class regex:
BeautifulSoup applies the regex to each class token of the element, and
the case-insensitive search succeeds when a token contains one of the
four words. -/
def resourceSections (soup : NodeList) : List Node :=
  (NodeList.elems soup).filter (fun n =>
    (n.tagName == "section" || n.tagName == "div") &&
      (n.tokensOf "class").any (fun tok =>
        resource_class_words.any (fun w => containsSub (pyLower tok) w)))

/-- The link-scan loop (lines 361-370): one `(type, indicator)` record per
anchor/indicator pair whose href or text contains the indicator. -/
def linkIndicators (soup : NodeList) : List (String × String) :=
  collect (fun a =>
    collect (fun ind =>
      if containsSub (pyLower (a.attrD "href")) ind || containsSub (pyLower a.innerText) ind then
        [("link_with_language", ind)]
      else []) language_indicators) (hrefAnchors soup)

/-- The resource-section loop (lines 373-387). -/
def sectionIndicators (soup : NodeList) : List (String × String) :=
  collect (fun s =>
    collect (fun ind =>
      if containsSub (pyLower s.innerText) ind then [("resource_section", ind)]
      else []) language_indicators) (resourceSections soup)

/-- Embedding of `check_for_non_english_resources` (lines 335-389). -/
def check_for_non_english_resources (soup : NodeList) (primary_language : String) : Bool :=
  if primary_language ≠ "en" ∧ primary_language ≠ "unknown" then true
  else decide (0 < (linkIndicators soup ++ sectionIndicators soup).length)

/-! Section: Site Classifier (`analyze_website`, lines 393-446) -/

/-- The per-site result record.  The Python code returns dicts whose key
sets differ per path (`status_code` only on the non-200 path, `error`
only on the exception path); absent keys are modelled as `none`. -/
structure SiteResult where
  name : String
  url : String
  status : String
  status_code : Option Nat
  error : Option String
  primary_language : Option String
  has_language_options : Bool
  language_options : List Signal
  has_non_english_resources : Bool
deriving DecidableEq, Inhabited

/-- Outcome of `requests.get` plus BeautifulSoup parsing, the external
effects of the `try` block of `analyze_website`: either a response with its
HTTP status code and parsed body, or the description string of an
exception raised during fetching or parsing. -/
inductive FetchResult where
  | success (status_code : Nat) (doc : NodeList)
  | failure (message : String)

/-- Embedding of `analyze_website` (lines 393-446).  The `try` block
covers the fetch,
the parse and the three detectors; any exception there is caught by the
`except Exception` clause and converted to an error result carrying
`str(e)`. -/
def analyze_website (guess : String → Option String) (name url : String)
    (fetch : FetchResult) : SiteResult :=
  match fetch with
  | .failure e =>
    { name := name, url := url, status := "error", status_code := none,
      error := some e, primary_language := none, has_language_options := false,
      language_options := [], has_non_english_resources := false }
  | .success code soup =>
    if code ≠ 200 then
      { name := name, url := url, status := "error", status_code := some code,
        error := none, primary_language := none, has_language_options := false,
        language_options := [], has_non_english_resources := false }
    else
      let primary_language := detect_primary_language guess soup
      let language_options := detect_language_options soup
      let has_non_english_resources := check_for_non_english_resources soup primary_language
      { name := name, url := url, status := "success", status_code := none,
        error := none, primary_language := some primary_language,
        has_language_options := decide (0 < language_options.length),
        language_options := language_options,
        has_non_english_resources := has_non_english_resources }

/-! Section: Fetch Orchestrator (`analyze_ai_safety_organizations`, lines 450-475)

The Python orchestrator submits one `analyze_website` task per CSV row to
a thread pool (one distinct future per row, so duplicates of a row keep
distinct entries in `future_to_org`) and appends `future.result()` for
each future as it completes.  The embedding models the batch
functionally: each organisation is paired with the outcome of its own
fetch, and the collected results are the per-organisation results.
Completion order is a permutation of submission order; the orchestrator
theorems only use the multiset of results, stated here in submission
order. -/

/-- One CSV row: the name and url of an organisation. -/
structure Organization where
  name : String
  url : String

/-- Embedding of `analyze_ai_safety_organizations` (lines 450-475),
reduced to its
task-dispatch core: one classification per organisation, each task
supplied with its own fetch outcome. -/
def analyze_ai_safety_organizations (guess : String → Option String)
    (orgs : List Organization) (fetch : Organization → FetchResult) : List SiteResult :=
  orgs.map (fun org => analyze_website guess org.name org.url (fetch org))

/-! Section: Concrete documents used by the claim theorems -/

/-- A select control named `language` whose two options are an unrelated
on/off toggle: the configuration of claim C1. -/
def c1Select : Node := .elem "select" [("id", "language")] (toNL [
  .elem "option" [("value", "on")] (toNL [.text "On"]),
  .elem "option" [("value", "off")] (toNL [.text "Off"])])

/-- A select with exactly the two option values `en` and `fr`, no
language-related id/name/class, no option texts. -/
def c2SelectTwo : Node := .elem "select" [] (toNL [
  .elem "option" [("value", "en")] (toNL []),
  .elem "option" [("value", "fr")] (toNL [])])

/-- A select with exactly the three option values `en`, `fr`, `de`. -/
def c2SelectThree : Node := .elem "select" [] (toNL [
  .elem "option" [("value", "en")] (toNL []),
  .elem "option" [("value", "fr")] (toNL []),
  .elem "option" [("value", "de")] (toNL [])])

/-- A select whose options contain a single supported code (`en`; `xx` is
not supported). -/
def c2SelectOne : Node := .elem "select" [] (toNL [
  .elem "option" [("value", "en")] (toNL []),
  .elem "option" [("value", "xx")] (toNL [])])

/-- Spec-side reading of the alternate-locale-link strategy, following
the words of the spec for comparison with the `altLangs` of the code: the distinct
`hreflang` values of the alternate links of the document that are neither
`en` nor the wildcard `x-default` — with no lowercasing and no exclusion
of empty values, since the spec names neither. -/
def specAltCodes (soup : NodeList) : List String :=
  dedupKeepFirst (((hreflangLinks soup).map (fun l => l.attrD "hreflang")).filter
    (fun v => v != "en" && v != "x-default"))

/-- A document whose only alternate link declares the empty `hreflang`
value: neither `en` nor `x-default`, yet dropped by the truthiness test of
the code. -/
def c8EmptyHref : NodeList :=
  toNL [.elem "link" [("rel", "alternate"), ("hreflang", "")] (toNL [])]

/-- A document declaring alternate locales `fr`, `FR`, `de` alongside
`en`, `x-default` and an empty value. -/
def c8MixedDoc : NodeList := toNL [.elem "head" [] (toNL [
  .elem "link" [("rel", "alternate"), ("hreflang", "fr")] (toNL []),
  .elem "link" [("rel", "alternate"), ("hreflang", "FR")] (toNL []),
  .elem "link" [("rel", "alternate"), ("hreflang", "de")] (toNL []),
  .elem "link" [("rel", "alternate"), ("hreflang", "en")] (toNL []),
  .elem "link" [("rel", "alternate"), ("hreflang", "x-default")] (toNL []),
  .elem "link" [("rel", "alternate"), ("hreflang", "")] (toNL [])])]

/-- Root element with `lang="fr-CA"`, over a document that also carries a
meta `content-language` and body text (which the detector must not
consult). -/
def c7Html : Node := .elem "html" [("lang", "fr-CA")] (toNL [
  .elem "meta" [("http-equiv", "content-language"), ("content", "de")] (toNL []),
  .elem "body" [] (toNL [.text "Bonjour tout le monde"])])

/-- Document rooted at `c7Html`. -/
def c7Doc : NodeList := toNL [c7Html]

/-- Root element with the empty `lang` attribute, over a document whose
meta tag and paragraph text would yield `de` if the detector fell
through. -/
def c10Html : Node := .elem "html" [("lang", "")] (toNL [
  .elem "meta" [("http-equiv", "content-language"), ("content", "de")] (toNL []),
  .elem "p" [] (toNL [.text "Dies ist ein sehr langer Beispieltext, der deutlich mehr als einhundert Zeichen enthaelt, damit die Texterkennung greifen wuerde."])])

/-- Document rooted at `c10Html`. -/
def c10Doc : NodeList := toNL [c10Html]

/-- An anchor to a Spanish-language path, for exercising the resource
detector. -/
def c9LinkDoc : NodeList :=
  toNL [.elem "a" [("href", "https://example.org/es/informe")] (toNL [.text "Informe"])]

/-! Section: Claim theorems -/

/-- C1: the spec says a select-style control with 2-15 options whose
id/name/class contains a language token is accepted immediately as a
dropdown signal even when its options are unrelated to language.  The
code does the opposite: `c1Select` has 2 options, its id contains the
token `lang`, its options are an on/off toggle, and the detector emits no
signal at all, because the only `language_options.append` of approach 1
sits inside the `if not has_lang_indicator` branch (lines 90-122),
contradicting the comment at line 113 (`either explicit label or
multiple matches`). -/
theorem claim_C1_lang_indicator_select_gives_no_signal :
    containsSub (pyLower (c1Select.attrD "id")) "lang" = true ∧
    (c1Select.findAllIn ["option"]).length = 2 ∧
    detect_language_options (toNL [c1Select]) = [] := by decide

/-- C2 counterexample: the claim asserts that a select with only the two
option values `en` and `fr` yields no dropdown signal; on the code it
yields one, because both `en` and `fr` count as code matches and the
count 2 already meets the `>= 2` threshold of line 114. -/
theorem claim_C2_counterexample :
    detect_language_options (toNL [c2SelectTwo]) =
      [Signal.language_select 2 0 (pyTake 200 c2SelectTwo.render)] := by decide

/-- C2 as amended: a select with the three option values `en`, `fr`, `de`
and no language-related id/name/class yields a dropdown signal (3 code
matches); the same select with only `en`, `fr` also yields one, its
code-match count of 2 meeting the threshold exactly; the boundary sits
between 1 and 2 code matches, a single supported code yielding no
signal. -/
theorem claim_C2_amended :
    detect_language_options (toNL [c2SelectThree]) =
      [Signal.language_select 3 0 (pyTake 200 c2SelectThree.render)] ∧
    detect_language_options (toNL [c2SelectTwo]) =
      [Signal.language_select 2 0 (pyTake 200 c2SelectTwo.render)] ∧
    detect_language_options (toNL [c2SelectOne]) = [] := by decide

/-- C3 counterexample: the claim asserts every 2xx response proceeds to
parsing and detection; the code tests `status_code != 200`, so the 2xx
status 204 short-circuits to an error result carrying 204. -/
theorem claim_C3_counterexample :
    (analyze_website (fun _ => none) "org" "http://x" (.success 204 (toNL []))).status = "error" ∧
    (analyze_website (fun _ => none) "org" "http://x" (.success 204 (toNL []))).status_code =
      some 204 := by decide

/-- C3 as amended: the Site Classifier treats exactly the non-200
statuses as per-site failures: a response with any status other than 200
yields an error result carrying that status code with all detection
skipped, and a status-200 response proceeds to the detectors. -/
theorem claim_C3_amended (guess : String → Option String) (name url : String)
    (code : Nat) (doc : NodeList) :
    (analyze_website guess name url (.success code doc)).status =
      (if code = 200 then "success" else "error") ∧
    (analyze_website guess name url (.success code doc)).status_code =
      (if code = 200 then none else some code) ∧
    (analyze_website guess name url (.success code doc)).language_options =
      (if code = 200 then detect_language_options doc else []) ∧
    (analyze_website guess name url (.success code doc)).primary_language =
      (if code = 200 then some (detect_primary_language guess doc) else none) := by
  by_cases h : code = 200 <;> simp [analyze_website, h]

/-- C5: every exception raised inside the `try` block of the classifier
(fetching, parsing, detection) is converted at the boundary into an error
result carrying the description string of the exception, every other field at
its empty default; the classifier itself is a total function and never
raises. -/
theorem claim_C5_exception_caught (guess : String → Option String) (name url msg : String) :
    analyze_website guess name url (.failure msg) =
      { name := name, url := url, status := "error", status_code := none,
        error := some msg, primary_language := none, has_language_options := false,
        language_options := [], has_non_english_resources := false } := rfl

/-- C4: on every return path of the classifier, `has_language_options`
equals `language_options` being non-empty, and `primary_language` is
`none` exactly when the status is `error`; on the success path the field
is `some (detect_primary_language ...)`, which falls back to the literal
string `unknown` (never `none`) when no signal could be extracted, as on
the empty document. -/
theorem claim_C4_result_invariants (guess : String → Option String) (name url : String)
    (fetch : FetchResult) :
    ((analyze_website guess name url fetch).has_language_options =
      decide (0 < (analyze_website guess name url fetch).language_options.length)) ∧
    ((analyze_website guess name url fetch).primary_language = none ↔
      (analyze_website guess name url fetch).status = "error") ∧
    (∀ doc : NodeList, (analyze_website guess name url (.success 200 doc)).primary_language =
      some (detect_primary_language guess doc)) ∧
    detect_primary_language guess (toNL []) = "unknown" := by
  refine ⟨?_, ?_, fun doc => by simp [analyze_website], rfl⟩
  · cases fetch with
    | failure e => simp [analyze_website]
    | success code doc => by_cases h : code = 200 <;> simp [analyze_website, h]
  · cases fetch with
    | failure e => simp [analyze_website]
    | success code doc => by_cases h : code = 200 <;> simp [analyze_website, h]

/-- C4 witness: the invariant theorem applied to a concrete failed fetch,
its equivalence discharged on the evaluated result. -/
theorem claim_C4_result_invariants_witness :
    (analyze_website (fun _ => none) "org" "url" (.failure "boom")).status = "error" :=
  ((claim_C4_result_invariants (fun _ => none) "org" "url" (.failure "boom")).2.1).mp (by decide)


/-- A mapped list read at a valid position, with any default. -/
theorem mapGetD {α β : Type} (f : α → β) (d : β) :
    ∀ (l : List α) (i : Fin l.length), (l.map f).getD i.val d = f (l.get i) := by
  intro l
  induction l with
  | nil => intro i; exact absurd i.isLt (by simp)
  | cons a t ih =>
    intro i
    cases i using Fin.cases with
    | zero => rfl
    | succ j => exact ih j

/-- C6: the orchestrator run over N organisations yields exactly N
results, and the result at each position is the classification of that
organisation at that position under its own fetch outcome — so a failing
task contributes its own error result and leaves the result at every
other position unchanged. -/
theorem claim_C6_orchestrator_results (guess : String → Option String)
    (orgs : List Organization) (fetch : Organization → FetchResult) :
    (analyze_ai_safety_organizations guess orgs fetch).length = orgs.length ∧
    ∀ i : Fin orgs.length,
      (analyze_ai_safety_organizations guess orgs fetch).getD i.val default =
        analyze_website guess (orgs.get i).name (orgs.get i).url (fetch (orgs.get i)) := by
  constructor
  · simp [analyze_ai_safety_organizations]
  · intro i
    exact mapGetD (fun org => analyze_website guess org.name org.url (fetch org)) default orgs i

/-- Data of a literal `String.mk`. -/
theorem mkData (l : List Char) : (String.mk l).data = l := rfl

/-- ASCII lowercasing fixes characters at or above code point 97. -/
theorem toLower_self_of_lower (c : Char) (h : 97 ≤ c.toNat) : Char.toLower c = c := by
  simp only [Char.toLower]
  rw [if_neg (by omega)]

/-- The dash is fixed by lowercasing. -/
theorem toLower_dash : Char.toLower '-' = '-' := by decide

/-- A lowercase letter differs from the dash. -/
theorem bne_dash_of_lower (c : Char) (h : 97 ≤ c.toNat) : (c != '-') = true := by
  simp only [bne_iff_ne, ne_eq]
  intro heq
  subst heq
  exact absurd h (by decide)

/-- C7: whenever the first `html` element of the document carries a
`lang` attribute of the region-subtag form `xx-YY` (`a`, `b` its two
lowercase letters, `region` the rest), the Primary Language Detector
returns exactly the primary subtag — whatever meta tags or text the rest
of the document contains, and whatever the free-text guesser would
say. -/
theorem claim_C7_region_subtag (guess : String → Option String) (soup : NodeList)
    (html_tag : Node) (a b : Char) (region : List Char)
    (hfind : (findAllTags soup ["html"]).head? = some html_tag)
    (hlang : html_tag.getAttr "lang" = some ⟨a :: b :: '-' :: region⟩)
    (ha1 : 97 ≤ a.toNat) (ha2 : a.toNat ≤ 122)
    (hb1 : 97 ≤ b.toNat) (hb2 : b.toNat ≤ 122) :
    detect_primary_language guess soup = ⟨[a, b]⟩ := by
  simp only [detect_primary_language, hfind, hlang]
  simp only [pyLower, mkData, List.map_cons, toLower_dash,
    toLower_self_of_lower a ha1, toLower_self_of_lower b hb1]
  have hc : (a :: b :: '-' :: (region.map Char.toLower)).contains '-' = true := by simp
  simp [hc, firstDashPiece, mkData, List.takeWhile_cons,
    bne_dash_of_lower a ha1, bne_dash_of_lower b hb1]

/-- C7 witness: the theorem applied to the concrete document with root
`lang="fr-CA"`. -/
theorem claim_C7_witness : detect_primary_language (fun _ => none) c7Doc = "fr" := by
  have h := claim_C7_region_subtag (fun _ => none) c7Doc c7Html 'f' 'r' "CA".data rfl rfl
    (by decide) (by decide) (by decide) (by decide)
  exact h

/-- C10: whenever the first `html` element carries a `lang` attribute,
the Primary Language Detector returns its lowercased, dash-truncated
value verbatim — with no validation of the value and no fall-through to
the meta-tag or free-text stages, whatever the rest of the document
holds; the empty attribute value yields the empty string. -/
theorem claim_C10_lang_attr_verbatim (guess : String → Option String) (soup : NodeList)
    (html_tag : Node) (v : String)
    (hfind : (findAllTags soup ["html"]).head? = some html_tag)
    (hlang : html_tag.getAttr "lang" = some v) :
    detect_primary_language guess soup =
      (if (pyLower v).data.contains '-' then firstDashPiece (pyLower v) else pyLower v) := by
  simp only [detect_primary_language, hfind, hlang]

/-- C10 witness: on the document whose root has `lang=""` and whose meta
tag and paragraphs say `de`, the detector returns the empty string. -/
theorem claim_C10_witness : detect_primary_language (fun _ => some "de") c10Doc = "" := by
  have h := claim_C10_lang_attr_verbatim (fun _ => some "de") c10Doc c10Html "" rfl rfl
  rw [h]
  decide

/-- Membership in the hreflang fold: a code is collected exactly when it
was already in the accumulator or some link of the list declares it (in
lowercased form) and it passes the guard of line 254. -/
theorem mem_addAltCodes (c : String) :
    ∀ (ls : List Node) (acc : List String),
      c ∈ addAltCodes acc ls ↔
        c ∈ acc ∨ (goodAltCode c ∧ ∃ l ∈ ls, pyLower (l.attrD "hreflang") = c) := by
  intro ls
  induction ls with
  | nil => intro acc; simp [addAltCodes]
  | cons l rest ih =>
    intro acc
    simp only [addAltCodes]
    by_cases hg : goodAltCode (pyLower (l.attrD "hreflang"))
    · rw [if_pos hg, ih]
      by_cases hc : pyLower (l.attrD "hreflang") = c
      · subst hc
        by_cases hmem : acc.contains (pyLower (l.attrD "hreflang")) = true
        · rw [if_pos hmem]
          have hv : pyLower (l.attrD "hreflang") ∈ acc := by
            simpa using hmem
          simp [hv, hg]
        · rw [if_neg hmem]
          simp [hg, List.mem_append]
      · by_cases hmem : acc.contains (pyLower (l.attrD "hreflang")) = true
        · rw [if_pos hmem]
          simp only [List.mem_cons]
          constructor
          · rintro (h | ⟨hgood, l2, hl2, heq⟩)
            · exact Or.inl h
            · exact Or.inr ⟨hgood, l2, Or.inr hl2, heq⟩
          · rintro (h | ⟨hgood, l2, hl2, heq⟩)
            · exact Or.inl h
            · rcases hl2 with rfl | hl2
              · exact absurd heq hc
              · exact Or.inr ⟨hgood, l2, hl2, heq⟩
        · rw [if_neg hmem]
          simp only [List.mem_append, List.mem_cons, List.not_mem_nil, or_false]
          constructor
          · rintro ((h | h) | ⟨hgood, l2, hl2, heq⟩)
            · exact Or.inl h
            · exact absurd h.symm hc
            · exact Or.inr ⟨hgood, l2, Or.inr hl2, heq⟩
          · rintro (h | ⟨hgood, l2, hl2, heq⟩)
            · exact Or.inl (Or.inl h)
            · rcases hl2 with rfl | hl2
              · exact absurd heq hc
              · exact Or.inr ⟨hgood, l2, hl2, heq⟩
    · rw [if_neg hg, ih]
      simp only [List.mem_cons]
      constructor
      · rintro (h | ⟨hgood, l2, hl2, heq⟩)
        · exact Or.inl h
        · exact Or.inr ⟨hgood, l2, Or.inr hl2, heq⟩
      · rintro (h | ⟨hgood, l2, hl2, heq⟩)
        · exact Or.inl h
        · rcases hl2 with rfl | hl2
          · exact absurd (heq ▸ hgood) hg
          · exact Or.inr ⟨hgood, l2, hl2, heq⟩

/-- The hreflang fold never duplicates a code: the `alt_langs` set model
stays duplicate-free. -/
theorem nodup_addAltCodes :
    ∀ (ls : List Node) (acc : List String), acc.Nodup → (addAltCodes acc ls).Nodup := by
  intro ls
  induction ls with
  | nil => intro acc h; simpa [addAltCodes] using h
  | cons l rest ih =>
    intro acc h
    simp only [addAltCodes]
    by_cases hg : goodAltCode (pyLower (l.attrD "hreflang"))
    · rw [if_pos hg]
      by_cases hmem : acc.contains (pyLower (l.attrD "hreflang")) = true
      · rw [if_pos hmem]; exact ih acc h
      · rw [if_neg hmem]
        refine ih _ ?_
        have hnot : pyLower (l.attrD "hreflang") ∉ acc := by
          simpa using hmem
        simpa [List.nodup_append] using And.intro h hnot
    · rw [if_neg hg]; exact ih acc h

/-- C8 counterexample: a document whose only alternate link declares the
empty `hreflang` value.  The value is neither `en` nor `x-default`, so
the set of other values named by the claim is non-empty (the spec-side reading
`specAltCodes` holds one code) and the claim demands a signal; the
truthiness test of the code drops the empty value and the detector emits
nothing. -/
theorem claim_C8_counterexample :
    (specAltCodes c8EmptyHref).length = 1 ∧ detect_language_options c8EmptyHref = [] := by
  decide

/-- C8 as amended: the strategy lowercases each `hreflang` value and also
ignores empty values; it emits no signal exactly when every alternate
lowercased link value is empty, `en`, or `x-default`, and otherwise
emits exactly one signal whose duplicate-free code list holds a code
exactly when some alternate link declares it (lowercased) and it passes
that guard. -/
theorem claim_C8_amended (soup : NodeList) :
    (approach4 soup = [] ↔
      ∀ l ∈ hreflangLinks soup, ¬ goodAltCode (pyLower (l.attrD "hreflang"))) ∧
    (approach4 soup ≠ [] →
      approach4 soup = [Signal.alternate_hreflang (altLangs soup) (altLangs soup).length] ∧
      (altLangs soup).Nodup ∧
      ∀ c : String, c ∈ altLangs soup ↔
        goodAltCode c ∧ ∃ l ∈ hreflangLinks soup, pyLower (l.attrD "hreflang") = c) := by
  have hmem : ∀ c : String, c ∈ altLangs soup ↔
      goodAltCode c ∧ ∃ l ∈ hreflangLinks soup, pyLower (l.attrD "hreflang") = c := by
    intro c
    simpa [altLangs] using mem_addAltCodes c (hreflangLinks soup) []
  constructor
  · constructor
    · intro hempty l hl hgood
      have halt : altLangs soup = [] := by
        by_contra halt
        simp [approach4, halt] at hempty
      have hc : pyLower (l.attrD "hreflang") ∈ altLangs soup :=
        (hmem _).mpr ⟨hgood, l, hl, rfl⟩
      rw [halt] at hc
      exact absurd hc (List.not_mem_nil _)
    · intro hall
      have halt : altLangs soup = [] := by
        by_contra halt
        obtain ⟨c, hc⟩ := List.exists_mem_of_ne_nil _ halt
        obtain ⟨hgood, l, hl, heq⟩ := (hmem c).mp hc
        exact hall l hl (heq ▸ hgood)
      simp [approach4, halt]
  · intro hne
    refine ⟨?_, nodup_addAltCodes (hreflangLinks soup) [] List.nodup_nil, hmem⟩
    by_cases halt : altLangs soup = []
    · simp [approach4, halt] at hne
    · simp [approach4, halt]

/-- C8 witness: the amended theorem applied to the document declaring
`fr`, `FR`, `de`, `en`, `x-default` and an empty value: one signal with
the two distinct codes `fr` and `de`. -/
theorem claim_C8_amended_witness :
    approach4 c8MixedDoc = [Signal.alternate_hreflang ["fr", "de"] 2] := by
  have h := (claim_C8_amended c8MixedDoc).2 (by decide)
  rw [h.1]
  decide

/-- Nested-loop accumulation is empty exactly when every iteration
contributes nothing. -/
theorem collect_eq_nil {α β : Type} (f : α → List β) :
    ∀ l : List α, collect f l = [] ↔ ∀ x ∈ l, f x = [] := by
  intro l
  induction l with
  | nil => simp [collect]
  | cons a t ih => simp [collect, List.append_eq_nil, ih]

/-- Contrapositive of `collect_eq_nil`. -/
theorem collect_ne_nil {α β : Type} (f : α → List β) (l : List α) :
    ¬ collect f l = [] ↔ ∃ x ∈ l, ¬ f x = [] := by
  rw [collect_eq_nil]
  push_neg
  rfl

/-- A guarded singleton is empty exactly when its guard fails. -/
theorem singleton_ite_eq_nil {β : Type} (c : Prop) [Decidable c] (x : β) :
    (if c then [x] else []) = [] ↔ ¬ c := by
  by_cases h : c <;> simp [h]

/-- The link scan of the resource detector finds a record exactly when
the href or the text of some anchor contains some indicator. -/
theorem linkIndicators_ne_nil (soup : NodeList) :
    ¬ linkIndicators soup = [] ↔
      ∃ a ∈ hrefAnchors soup, ∃ ind ∈ language_indicators,
        (containsSub (pyLower (a.attrD "href")) ind = true ∨
          containsSub (pyLower a.innerText) ind = true) := by
  unfold linkIndicators
  simp only [collect_ne_nil, singleton_ite_eq_nil, not_not, Bool.or_eq_true]

/-- The section scan finds a record exactly when the text of some
resource section contains some indicator. -/
theorem sectionIndicators_ne_nil (soup : NodeList) :
    ¬ sectionIndicators soup = [] ↔
      ∃ s ∈ resourceSections soup, ∃ ind ∈ language_indicators,
        containsSub (pyLower s.innerText) ind = true := by
  unfold sectionIndicators
  simp only [collect_ne_nil, singleton_ite_eq_nil, not_not]

/-- C9: with any primary language other than `en` and `unknown` the
Non-English Resource Detector answers true for every document, links and
sections never consulted; with primary language `en` or `unknown` it
answers true exactly when at least one language indicator occurs in some
href or visible text of some anchor or in the text of some resource
section — a
single indicator suffices, with no minimum count. -/
theorem claim_C9_resource_detection (soup : NodeList) (pl : String) :
    (pl ≠ "en" → pl ≠ "unknown" → check_for_non_english_resources soup pl = true) ∧
    (pl = "en" ∨ pl = "unknown" →
      (check_for_non_english_resources soup pl = true ↔
        (∃ a ∈ hrefAnchors soup, ∃ ind ∈ language_indicators,
          (containsSub (pyLower (a.attrD "href")) ind = true ∨
            containsSub (pyLower a.innerText) ind = true)) ∨
        ∃ s ∈ resourceSections soup, ∃ ind ∈ language_indicators,
          containsSub (pyLower s.innerText) ind = true)) := by
  constructor
  · intro h1 h2
    simp [check_for_non_english_resources, h1, h2]
  · intro hpl
    have hcond : ¬(pl ≠ "en" ∧ pl ≠ "unknown") := by
      rcases hpl with rfl | rfl <;> simp
    unfold check_for_non_english_resources
    rw [if_neg hcond, decide_eq_true_eq, List.length_pos, Ne, List.append_eq_nil,
      not_and_or, linkIndicators_ne_nil, sectionIndicators_ne_nil]

/-- C9 witness: the short-circuit applied with primary language `de` on
the empty document, and the indicator equivalence applied with primary
language `en` on the document holding one Spanish-path anchor. -/
theorem claim_C9_witness :
    check_for_non_english_resources (toNL []) "de" = true ∧
    check_for_non_english_resources c9LinkDoc "en" = true := by
  constructor
  · exact (claim_C9_resource_detection (toNL []) "de").1 (by decide) (by decide)
  · exact ((claim_C9_resource_detection c9LinkDoc "en").2 (Or.inl rfl)).mpr (by decide)
